import Mathlib

/-!
Verification of the ollama-semantic-search retrieval pipeline.

The repository contains two near-duplicate Deno scripts (an "always-search"
variant and a "trigger-mode" variant that routes on the substring "search").
This file gives a shallow embedding of both variants' pure logic:
text processing, cosine similarity, ranking, source collection, and the
per-iteration orchestration, with network effects modelled as explicit
environments (`FetchEnv`, `OrchEnv`).  Real numbers stand in for JS floats
(the usual idealisation: division by zero yields 0 in ℝ, NaN in JS).
-/

namespace SemSearch

/-! ### Configuration constants (from the scripts' top-level consts) -/

def MAX_CONTENT_LENGTH : Nat := 3000

def REQUIRED_LINKS : Nat := 10

/-- Top-K rank count: the `.slice(0, 3)` in the answer generators. -/
def RANK_K : Nat := 3

/-! ### String machinery mirroring the JS primitives used by the scripts -/

/-- Whitespace test approximating the JS regex class `[\s\n]`
(adequate for the ASCII whitespace the pipeline manipulates). -/
def isJsWs (c : Char) : Bool := c.isWhitespace

/-- Worker for `collapseWs`; the flag records whether the previous
character was part of a whitespace run already emitted as one space. -/
def collapseWsAux : Bool → List Char → List Char
  | _, [] => []
  | prevWs, c :: rest =>
    if isJsWs c then
      if prevWs then collapseWsAux true rest
      else ' ' :: collapseWsAux true rest
    else c :: collapseWsAux false rest

/-- JS `text.replace(/[\s\n]+/g, " ")`: every maximal whitespace run
becomes a single space. -/
def collapseWs (l : List Char) : List Char := collapseWsAux false l

/-- JS `String.prototype.toLowerCase` (ASCII-adequate). -/
def lowerStr (s : String) : String := String.mk (s.data.map Char.toLower)

/-- JS `String.prototype.includes`: substring containment. -/
def containsSub (pat : List Char) : List Char → Bool
  | [] => pat.isEmpty
  | c :: rest => pat.isPrefixOf (c :: rest) || containsSub pat rest

/-- JS `String.prototype.replace` with a string pattern and empty
replacement: remove the first occurrence only, case-sensitively. -/
def removeFirstOcc (pat : List Char) : List Char → List Char
  | [] => []
  | c :: rest =>
    if pat.isPrefixOf (c :: rest) then (c :: rest).drop pat.length
    else c :: removeFirstOcc pat rest

/-- JS `String.prototype.trim`: strip whitespace from both ends. -/
def trimChars (l : List Char) : List Char :=
  ((l.dropWhile isJsWs).reverse.dropWhile isJsWs).reverse

/-- The post-extraction text normalisation in `fetchPageContent`:
`text.replace(/[\s\n]+/g, " ").substring(0, MAX_CONTENT_LENGTH)`. -/
def processText (raw : String) : String :=
  String.mk ((collapseWs raw.data).take MAX_CONTENT_LENGTH)

/-! ### Data model -/

/-- One hit mapped from the search endpoint's JSON
(`{url, title: title || "", snippet: content || ""}`). -/
structure SearchResult where
  url : String
  title : String
  snippet : String

/-- The record produced by `fetchPageContent`:
`{ url, text, embedding }` with floats idealised as reals. -/
structure Source where
  url : String
  text : String
  embedding : List ℝ

/-- A source paired with its similarity score, as built by the answer
generators via `{...source, similarity}`. -/
structure RankedSource where
  source : Source
  similarity : ℝ

/-- Validity filter applied by both collectors: `content.text.length > 100`. -/
def isValidSource (s : Source) : Bool := 100 < s.text.length

/-! ### Cosine similarity

`cosineSimilarity` is the scripts' function verbatim: the guard, then
index-based `reduce` folds for the dot product and the two magnitudes.
`dotProductSpec` and `magnitudeSpec` are the spec's wording ("dot product",
"magnitudes") and are proved equal to the folds below. -/

/-- JS `Array.prototype.reduce` with the element index also supplied to
the callback, as used for the dot product. -/
def reduceIdx (f : ℝ → ℝ → Nat → ℝ) : ℝ → Nat → List ℝ → ℝ
  | acc, _, [] => acc
  | acc, i, x :: rest => reduceIdx f (f acc x i) (i + 1) rest

/-- The scripts' `cosineSimilarity`.  `vecB.getD i 0` models `vecB[i]`;
under the length guard the index never falls out of range, so the default
is never consulted on the code's reachable paths. -/
noncomputable def cosineSimilarity (vecA vecB : List ℝ) : ℝ :=
  if vecA.length ≠ vecB.length ∨ vecA.length = 0 then 0
  else
    let dotProduct := reduceIdx (fun sum a i => sum + a * vecB.getD i 0) 0 0 vecA
    let magA := Real.sqrt (vecA.foldl (fun sum a => sum + a * a) 0)
    let magB := Real.sqrt (vecB.foldl (fun sum b => sum + b * b) 0)
    dotProduct / (magA * magB)

/-- Dot product as the spec words it. -/
def dotProductSpec (a b : List ℝ) : ℝ := (List.zipWith (· * ·) a b).sum

/-- Magnitude (Euclidean norm) as the spec words it. -/
noncomputable def magnitudeSpec (a : List ℝ) : ℝ :=
  Real.sqrt ((a.map (fun x => x * x)).sum)

theorem reduceIdx_eq_dot (b : List ℝ) :
    ∀ (a : List ℝ) (acc : ℝ) (k : Nat),
      reduceIdx (fun sum x i => sum + x * b.getD i 0) acc k a =
        acc + dotProductSpec a (b.drop k) := by
  intro a
  induction a with
  | nil => intro acc k; simp [reduceIdx, dotProductSpec]
  | cons x rest ih =>
    intro acc k
    rw [reduceIdx, ih]
    rcases hb : b.drop k with _ | ⟨y, ys⟩
    · have h0 : b[k]? = (none : Option ℝ) := by
        have h1 := List.getElem?_drop b k 0
        rw [hb] at h1
        simpa using h1.symm
      have hk : b.getD k 0 = 0 := by
        rw [List.getD_eq_getElem?_getD, h0]
        rfl
      have hk1 : b.drop (k + 1) = [] := by
        have h2 : (b.drop k).drop 1 = b.drop (k + 1) := List.drop_drop 1 k b
        rw [hb] at h2
        simpa using h2.symm
      rw [hk1, hk]
      simp [dotProductSpec]
    · have h0 : b[k]? = some y := by
        have h1 := List.getElem?_drop b k 0
        rw [hb] at h1
        simpa using h1.symm
      have hk : b.getD k 0 = y := by
        rw [List.getD_eq_getElem?_getD, h0]
        rfl
      have hk1 : b.drop (k + 1) = ys := by
        have h2 : (b.drop k).drop 1 = b.drop (k + 1) := List.drop_drop 1 k b
        rw [hb] at h2
        simpa using h2.symm
      rw [hk1, hk]
      simp [dotProductSpec]
      ring

theorem foldl_eq_sumsq :
    ∀ (a : List ℝ) (acc : ℝ),
      a.foldl (fun sum x => sum + x * x) acc = acc + (a.map (fun x => x * x)).sum := by
  intro a
  induction a with
  | nil => intro acc; simp
  | cons x rest ih =>
    intro acc
    rw [List.foldl_cons, ih]
    simp
    ring

/-! ### Page Fetcher

The network and the HTML library are external; they are modelled as an
explicit environment.  `httpGet url = none` stands for a thrown fetch
failure (timeout abort or network error); note that a resolved response
carries its status code but `fetchPageContent` — like the scripts —
never inspects it.  `extract = none` stands for a throw while reading
the body or during cheerio extraction. -/

/-- A resolved HTTP response: status code and body text. -/
structure HttpResponse where
  status : Nat
  body : String

/-- Environment for one page fetch.  The `embed` field is
Modelled from the spec: the repository's `embedding.ts` (absent from the
sources) — per spec §4.1 an individual `getEmbedding` failure returns an
empty vector rather than throwing, so it is a total function. -/
structure FetchEnv where
  httpGet : String → Option HttpResponse
  extract : String → Option String
  embed : String → List ℝ

/-- The scripts' `fetchPageContent` (identical in both variants): the
whole body sits in a `try`, and the `catch` returns
`{ url, text: "", embedding: [] }`. -/
def fetchPageContent (env : FetchEnv) (url : String) : Source :=
  match env.httpGet url with
  | none => { url := url, text := "", embedding := [] }
  | some resp =>
    match env.extract resp.body with
    | none => { url := url, text := "", embedding := [] }
    | some raw =>
      let processedText := processText raw
      { url := url, text := processedText, embedding := env.embed processedText }

/-! ### Source collection

The trigger-mode variant collects inside `main` with
`while (sources.length < REQUIRED_LINKS && currentIndex < results.length)`,
appending each fetched page whose `text.length > 100`.  The always-search
variant instead takes `results.slice(0, 10)` and fetches every slot of the
slice.  Both are modelled with the fetch count returned alongside. -/

/-- The trigger-mode variant's collection loop (`main`, the `while` over
`currentIndex`).  Returns the accumulated sources and the number of
`fetchPageContent` invocations. -/
def collectScan (fetchF : String → Source) (required : Nat)
    (acc : List Source) (cnt : Nat) : List SearchResult → List Source × Nat
  | [] => (acc, cnt)
  | r :: rest =>
    if acc.length < required then
      let content := fetchF r.url
      if isValidSource content then
        collectScan fetchF required (acc ++ [content]) (cnt + 1) rest
      else
        collectScan fetchF required acc (cnt + 1) rest
    else (acc, cnt)

/-- The always-search variant's collection loop (`main`:
`const linksToFetch = results.slice(0, 10)` followed by a `for` over the
slice).  Returns the kept sources and the number of fetches. -/
def collectSlice (fetchF : String → Source) (results : List SearchResult) :
    List Source × Nat :=
  let links := results.take REQUIRED_LINKS
  ((links.map (fun r => fetchF r.url)).filter isValidSource, links.length)

theorem collectScan_fst (fetchF : String → Source) (required : Nat) :
    ∀ (rs : List SearchResult) (acc : List Source) (cnt : Nat),
      acc.length ≤ required →
      (collectScan fetchF required acc cnt rs).1 =
        acc ++ ((rs.map (fun r => fetchF r.url)).filter isValidSource).take
          (required - acc.length) := by
  intro rs
  induction rs with
  | nil => intro acc cnt _; simp [collectScan]
  | cons r rest ih =>
    intro acc cnt hacc
    rw [collectScan]
    rcases Nat.lt_or_ge acc.length required with hlt | hge
    · rw [if_pos hlt]
      rcases hv : isValidSource (fetchF r.url) with _ | _
      · rw [if_neg (by simp [hv])]
        rw [ih acc (cnt + 1) hacc]
        simp [hv]
      · rw [if_pos (by simp [hv])]
        rw [ih (acc ++ [fetchF r.url]) (cnt + 1) (by simp; omega)]
        have hn : required - acc.length = (required - (acc.length + 1)) + 1 := by omega
        simp only [List.map_cons, List.filter_cons, hv, if_pos, List.length_append,
          List.length_cons, List.length_nil, List.append_assoc, List.singleton_append]
        rw [hn, List.take_succ_cons]
    · rw [if_neg (Nat.not_lt.mpr hge)]
      simp [Nat.sub_eq_zero_of_le hge]


theorem collectScan_cnt_le (fetchF : String → Source) (required : Nat) :
    ∀ (rs : List SearchResult) (acc : List Source) (cnt : Nat),
      (collectScan fetchF required acc cnt rs).2 ≤ cnt + rs.length := by
  intro rs
  induction rs with
  | nil => intro acc cnt; simp [collectScan]
  | cons r rest ih =>
    intro acc cnt
    rw [collectScan]
    rcases Nat.lt_or_ge acc.length required with hlt | hge
    · rw [if_pos hlt]
      rcases hv : isValidSource (fetchF r.url) with _ | _
      · rw [if_neg (by simp [hv])]
        have h := ih acc (cnt + 1)
        simp only [List.length_cons]
        omega
      · rw [if_pos (by simp [hv])]
        have h := ih (acc ++ [fetchF r.url]) (cnt + 1)
        simp only [List.length_cons]
        omega
    · rw [if_neg (Nat.not_lt.mpr hge)]
      simp

theorem collectScan_cnt_quota (fetchF : String → Source) (required : Nat) :
    ∀ (rs : List SearchResult) (n : Nat) (acc : List Source) (cnt : Nat),
      required ≤
          (((rs.take n).map (fun r => fetchF r.url)).filter isValidSource).length +
            acc.length →
      (collectScan fetchF required acc cnt rs).2 ≤ cnt + n := by
  intro rs
  induction rs with
  | nil => intro n acc cnt _; simp [collectScan]
  | cons r rest ih =>
    intro n acc cnt hquota
    rw [collectScan]
    rcases Nat.lt_or_ge acc.length required with hlt | hge
    · rw [if_pos hlt]
      rcases n with _ | m
      · exfalso
        simp at hquota
        omega
      · simp only [List.take_succ_cons, List.map_cons, List.filter_cons] at hquota
        rcases hv : isValidSource (fetchF r.url) with _ | _
        · rw [if_neg (by simp [hv])]
          rw [hv] at hquota
          simp at hquota
          have h := ih m acc (cnt + 1) (by simp; omega)
          omega
        · rw [if_pos (by simp [hv])]
          rw [hv] at hquota
          simp at hquota
          have h := ih m (acc ++ [fetchF r.url]) (cnt + 1) (by simp; omega)
          omega
    · rw [if_neg (Nat.not_lt.mpr hge)]
      simp

/-! ### Per-iteration orchestration

The interactive loop in `main` is thin I/O; what each non-exit iteration
does is a pure function of the query and of how the external calls
resolve.  `OrchEnv.search` models the whole `searchWeb` call
(`Except.error ()` is a throw: non-2xx or network failure), and `genOk`
models the health of the generation endpoint (`response.ok` of the
`/api/generate` call: when false, the generate helpers throw after being
invoked). -/

/-- Environment of one loop iteration. -/
structure OrchEnv where
  search : String → Except Unit (List SearchResult)
  fetchEnv : FetchEnv
  genOk : Bool

/-- One invocation of an answer-generating helper. -/
inductive GenCall where
  | general (query : String)
  | webRanked (query : String) (sources : List Source)

/-- Discriminator for the ranked-generation path. -/
def isWebCall : GenCall → Bool
  | .general _ => false
  | .webRanked _ _ => true

/-- Observable outcome of one loop iteration: the argument passed to
`searchWeb` (if it was called), the generate helpers invoked in order,
and whether an exception escaped the iteration (which would abort the
interactive loop). -/
structure IterResult where
  searchedWith : Option String
  genCalls : List GenCall
  threw : Bool

/-- Trigger-mode classification: `query.toLowerCase().includes("search")`. -/
def webMode (q : String) : Bool := containsSub "search".data (lowerStr q).data

/-- The argument the trigger-mode variant passes to `searchWeb`:
`query.replace("search", "").trim()`. -/
def sentQuery (q : String) : String :=
  String.mk (trimChars (removeFirstOcc "search".data q.data))

/-- One iteration of the trigger-mode variant's loop.  The general-answer
branch and the `catch` handler's `generateGeneralAnswer` sit outside any
enclosing `try`, so their throws escape; inside the `try`, a throw of a
generate helper is caught and answered by the handler's general call,
which may itself throw. -/
def processQuery000 (env : OrchEnv) (query : String) : IterResult :=
  if webMode query = false then
    { searchedWith := none, genCalls := [.general query], threw := !env.genOk }
  else
    let sent := sentQuery query
    match env.search sent with
    | .error _ =>
      { searchedWith := some sent, genCalls := [.general query], threw := !env.genOk }
    | .ok results =>
      let sources :=
        (collectScan (fetchPageContent env.fetchEnv) REQUIRED_LINKS [] 0 results).1
      if sources.length = 0 then
        if env.genOk then
          { searchedWith := some sent, genCalls := [.general query], threw := false }
        else
          { searchedWith := some sent, genCalls := [.general query, .general query],
            threw := true }
      else
        if env.genOk then
          { searchedWith := some sent, genCalls := [.webRanked query sources],
            threw := false }
        else
          { searchedWith := some sent,
            genCalls := [.webRanked query sources, .general query], threw := true }

/-- One iteration of the always-search variant's loop.  Its whole body is
wrapped in `try { ... } catch { console.error }`: a search failure or a
throwing `generateAnswer` is logged and nothing escapes; on zero valid
sources it only logs "No valid web content found." and calls no
generator. -/
def processQuery001 (env : OrchEnv) (query : String) : IterResult :=
  match env.search query with
  | .error _ =>
    { searchedWith := some query, genCalls := [], threw := false }
  | .ok results =>
    let sources := (collectSlice (fetchPageContent env.fetchEnv) results).1
    if sources.length = 0 then
      { searchedWith := some query, genCalls := [], threw := false }
    else
      { searchedWith := some query, genCalls := [.webRanked query sources],
        threw := false }

/-- The loop-exit test shared verbatim by both variants:
`if (!query || query.toLowerCase() === "exit") break;` where `prompt`
yields `null` or a line. -/
def shouldExit (line : Option String) : Bool :=
  match line with
  | none => true
  | some q => q.isEmpty || (lowerStr q == "exit")

/-- The ranking step shared by `generateWebAnswer` / `generateAnswer`:
score each source against the query embedding, sort by the comparator
`(a, b) => b.similarity - a.similarity` (descending; JS sort is stable,
modelled by a stable merge sort), and `slice(0, 3)`. -/
noncomputable def rankSources (queryEmbedding : List ℝ) (sources : List Source) :
    List RankedSource :=
  ((sources.map (fun s =>
      { source := s, similarity := cosineSimilarity queryEmbedding s.embedding })).mergeSort
    (fun a b => b.similarity ≤ a.similarity)).take RANK_K

/-! ### Claim theorems -/

/-- Claim C5: for every pair of vectors, `cosineSimilarity` returns 0
whenever the lengths differ or either vector is empty, and otherwise
returns the dot product divided by the product of the magnitudes. -/
theorem C5_cosineSimilarity_spec (a b : List ℝ) :
    ((a.length ≠ b.length ∨ a = [] ∨ b = []) → cosineSimilarity a b = 0) ∧
    (a.length = b.length → a ≠ [] →
      cosineSimilarity a b =
        dotProductSpec a b / (magnitudeSpec a * magnitudeSpec b)) := by
  constructor
  · intro h
    rw [cosineSimilarity]
    rcases h with h | h | h
    · rw [if_pos (Or.inl h)]
    · rw [if_pos (Or.inr (by simp [h]))]
    · rcases eq_or_ne a [] with ha | ha
      · rw [if_pos (Or.inr (by simp [ha]))]
      · rw [if_pos (Or.inl (by
          rw [h]
          simpa using fun hlen => ha (List.length_eq_zero.mp hlen)))]
  · intro hlen hne
    have hcond : ¬(a.length ≠ b.length ∨ a.length = 0) := by
      rintro (h | h)
      · exact h hlen
      · exact hne (List.length_eq_zero.mp h)
    rw [cosineSimilarity, if_neg hcond]
    simp only [reduceIdx_eq_dot b a 0 0, foldl_eq_sumsq, List.drop_zero, zero_add,
      magnitudeSpec]

/-- Witness for C5 at concrete vectors of unequal length. -/
theorem C5_witness :
    (([1] : List ℝ).length ≠ ([1, 2] : List ℝ).length ∨ ([1] : List ℝ) = [] ∨
        ([1, 2] : List ℝ) = []) ∧
      cosineSimilarity [1] [1, 2] = 0 :=
  ⟨Or.inl (by simp), (C5_cosineSimilarity_spec [1] [1, 2]).1 (Or.inl (by simp))⟩

/-- Claim C4: the ranker returns at most `K = 3` ranked sources (exactly
`min 3 n` when `n` sources are supplied) and the returned list is sorted
non-increasing by similarity. -/
theorem C4_rank_topK_sorted (qe : List ℝ) (sources : List Source) :
    (rankSources qe sources).length = min RANK_K sources.length ∧
    List.Sorted (· ≥ ·) ((rankSources qe sources).map RankedSource.similarity) := by
  constructor
  · rw [rankSources]
    simp
  · rw [rankSources]
    have h := List.sorted_mergeSort
      (fun (a b c : RankedSource) (h1 : decide (b.similarity ≤ a.similarity) = true)
          (h2 : decide (c.similarity ≤ b.similarity) = true) =>
        decide_eq_true (le_trans (of_decide_eq_true h2) (of_decide_eq_true h1)))
      (fun (a b : RankedSource) => by
        simp only [Bool.or_eq_true, decide_eq_true_eq]
        exact le_total b.similarity a.similarity)
      (sources.map (fun s =>
        { source := s, similarity := cosineSimilarity qe s.embedding }))
    have h2 := h.sublist (List.take_sublist RANK_K _)
    rw [List.Sorted, List.pairwise_map]
    exact h2.imp (fun hab => of_decide_eq_true hab)

/-- A fetch environment resolving every URL to an HTTP 500 response whose
body is 200 characters long, with extraction returning the body. -/
def envC1 : FetchEnv where
  httpGet := fun _ =>
    some { status := 500, body := String.mk (List.replicate 200 'a') }
  extract := fun body => some body
  embed := fun _ => []

/-- Counterexample to C1 as stated: a non-2xx (HTTP 500) response is not
caught and converted to a Source with empty text — `fetchPageContent`
never inspects the status, so the error page's body is processed as
content (here 200 characters long). -/
theorem C1_counterexample :
    envC1.httpGet "http://example.com" =
        some { status := 500, body := String.mk (List.replicate 200 'a') } ∧
      (fetchPageContent envC1 "http://example.com").text.length = 200 :=
  ⟨rfl, rfl⟩

/-- Claim C1 (amended): the fetcher never throws past its boundary, and
any thrown failure — fetch rejection (timeout or network error) or a
body-read/extraction failure — is caught and converted to a Source with
empty text and empty embedding.  (A non-2xx response is not treated as a
failure: its body is processed like a success.) -/
theorem C1_fetch_catch_empty (env : FetchEnv) (url : String)
    (h : env.httpGet url = none ∨
      ∃ r, env.httpGet url = some r ∧ env.extract r.body = none) :
    fetchPageContent env url = { url := url, text := "", embedding := [] } := by
  rcases h with h | ⟨r, hr, he⟩
  · simp [fetchPageContent, h]
  · simp [fetchPageContent, hr, he]

/-- A fetch environment in which every fetch throws. -/
def envC1throw : FetchEnv where
  httpGet := fun _ => none
  extract := fun _ => none
  embed := fun _ => []

/-- Witness for C1 at a concrete throwing environment. -/
theorem C1_witness :
    (envC1throw.httpGet "http://example.com" = none ∨
      ∃ r, envC1throw.httpGet "http://example.com" = some r ∧
        envC1throw.extract r.body = none) ∧
      fetchPageContent envC1throw "http://example.com" =
        { url := "http://example.com", text := "", embedding := [] } :=
  ⟨Or.inl rfl, C1_fetch_catch_empty envC1throw "http://example.com" (Or.inl rfl)⟩

/-- Claim C2 (amended): the trigger-mode variant's collector is the
sequential early-terminating scan of the claim — it returns the first
`required` valid fetched sources (so never more than `required`), fetches
at most the whole list, and performs no more than `n` fetches whenever the
first `n` results already contain `required` valid ones.  The always-search
variant's collector is instead a fixed-size slice: it fetches exactly the
first `min 10 |results|` results and filters them, regardless of quota or
of valid results beyond the slice. -/
theorem C2_collect_behaviour (fetchF : String → Source) (required : Nat)
    (rs : List SearchResult) :
    (collectScan fetchF required [] 0 rs).1 =
        ((rs.map (fun r => fetchF r.url)).filter isValidSource).take required ∧
    (collectScan fetchF required [] 0 rs).1.length ≤ required ∧
    (collectScan fetchF required [] 0 rs).2 ≤ rs.length ∧
    (∀ n, required ≤
          (((rs.take n).map (fun r => fetchF r.url)).filter isValidSource).length →
        (collectScan fetchF required [] 0 rs).2 ≤ n) ∧
    (collectSlice fetchF rs).1 =
        ((rs.take REQUIRED_LINKS).map (fun r => fetchF r.url)).filter isValidSource ∧
    (collectSlice fetchF rs).2 = min REQUIRED_LINKS rs.length := by
  have h1 : (collectScan fetchF required [] 0 rs).1 =
      ((rs.map (fun r => fetchF r.url)).filter isValidSource).take required := by
    simpa using collectScan_fst fetchF required rs [] 0 (Nat.zero_le _)
  refine ⟨h1, ?_, ?_, ?_, rfl, by simp [collectSlice]⟩
  · rw [h1, List.length_take]
    exact Nat.min_le_left _ _
  · simpa using collectScan_cnt_le fetchF required rs [] 0
  · intro n hn
    simpa using collectScan_cnt_quota fetchF required rs n [] 0 (by simpa using hn)

/-- A 101-character text, just over the validity threshold. -/
def validText : String := String.mk (List.replicate 101 'a')

/-- Result stub with a given URL. -/
def mkResult (u : String) : SearchResult := { url := u, title := "", snippet := "" }

/-- Fetch stub: only the URL "u11" yields valid (101-character) content. -/
def fetchC2 : String → Source := fun u =>
  if u = "u11" then { url := u, text := validText, embedding := [] }
  else { url := u, text := "", embedding := [] }

/-- Eleven search results; only the eleventh fetches valid content. -/
def resultsC2 : List SearchResult :=
  [mkResult "u1", mkResult "u2", mkResult "u3", mkResult "u4", mkResult "u5",
    mkResult "u6", mkResult "u7", mkResult "u8", mkResult "u9", mkResult "u10",
    mkResult "u11"]

/-- Counterexample to C2 as stated: on eleven results whose only valid
page is the eleventh, the always-search collector stops after the first
ten fetches with zero sources — its quota (10) is unmet and the list is
not exhausted, yet it scans no further.  The scan semantics (realised by
the trigger-mode collector) would fetch the eleventh and return it. -/
theorem C2_counterexample :
    (collectSlice fetchC2 resultsC2).1 = [] ∧
    (collectSlice fetchC2 resultsC2).2 = 10 ∧
    resultsC2.length = 11 ∧
    isValidSource (fetchC2 "u11") = true ∧
    (collectScan fetchC2 10 [] 0 resultsC2).1.length = 1 :=
  ⟨rfl, rfl, rfl, rfl, rfl⟩

/-- Fetch stub for which every URL yields valid content. -/
def fetchAllValid : String → Source := fun u =>
  { url := u, text := validText, embedding := [] }

/-- Witness for C2's quota clause: with quota 1 and an all-valid stub of
two results, the quota is met within the first result and exactly one
fetch is performed. -/
theorem C2_witness :
    (1 ≤ ((([mkResult "a", mkResult "b"].take 1).map
          (fun r => fetchAllValid r.url)).filter isValidSource).length) ∧
      (collectScan fetchAllValid 1 [] 0 [mkResult "a", mkResult "b"]).2 ≤ 1 :=
  ⟨by decide,
    (C2_collect_behaviour fetchAllValid 1 [mkResult "a", mkResult "b"]).2.2.2.1 1
      (by decide)⟩

/-- Claim C3: every Source in the sequence returned by either variant's
collector has `text.length > 100`; no invalid Source ever appears. -/
theorem C3_collected_valid (fetchF : String → Source) (required : Nat)
    (rs : List SearchResult) :
    (∀ s ∈ (collectScan fetchF required [] 0 rs).1, 100 < s.text.length) ∧
    (∀ s ∈ (collectSlice fetchF rs).1, 100 < s.text.length) := by
  constructor
  · intro s hs
    have h1 : (collectScan fetchF required [] 0 rs).1 =
        ((rs.map (fun r => fetchF r.url)).filter isValidSource).take required := by
      simpa using collectScan_fst fetchF required rs [] 0 (Nat.zero_le _)
    rw [h1] at hs
    have hs2 := (List.take_sublist required _).subset hs
    have hv := List.of_mem_filter hs2
    simpa [isValidSource] using hv
  · intro s hs
    have hv := List.of_mem_filter hs
    simpa [isValidSource] using hv

/-- Witness for C3 at a concrete collected source. -/
theorem C3_witness :
    fetchAllValid "w" ∈ (collectScan fetchAllValid 10 [] 0 [mkResult "w"]).1 ∧
      100 < (fetchAllValid "w").text.length := by
  have hmem : fetchAllValid "w" ∈ (collectScan fetchAllValid 10 [] 0 [mkResult "w"]).1 := by
    show fetchAllValid "w" ∈ [fetchAllValid "w"]
    exact List.mem_singleton.mpr rfl
  exact ⟨hmem, (C3_collected_valid fetchAllValid 10 [mkResult "w"]).1 _ hmem⟩

/-- Removal is the identity on strings with no occurrence of the pattern. -/
theorem removeFirstOcc_eq_of_no_occ (pat : List Char) :
    ∀ l : List Char, containsSub pat l = false → removeFirstOcc pat l = l := by
  intro l
  induction l with
  | nil => intro _; rfl
  | cons c rest ih =>
    intro h
    rw [containsSub] at h
    simp only [Bool.or_eq_false_iff] at h
    rw [removeFirstOcc, if_neg (by simp [h.1])]
    rw [ih h.2]

/-- A trivial fetch environment in which every fetch throws. -/
def envTrivFetch : FetchEnv where
  httpGet := fun _ => none
  extract := fun _ => none
  embed := fun _ => []

/-- Orchestration environment whose search call always fails. -/
def envSearchFail : OrchEnv where
  search := fun _ => Except.error ()
  fetchEnv := envTrivFetch
  genOk := true

/-- Orchestration environment whose search call always succeeds with an
empty result list. -/
def envSearchEmpty : OrchEnv where
  search := fun _ => Except.ok []
  fetchEnv := envTrivFetch
  genOk := true

/-- Orchestration environment with failing search and a failing
generation endpoint. -/
def envGenDown : OrchEnv where
  search := fun _ => Except.error ()
  fetchEnv := envTrivFetch
  genOk := false

/-- Counterexample to C6 as stated: in the always-search variant a failing
search call does not fall back to general-answer mode — no generator is
called at all (the error is only logged). -/
theorem C6_counterexample :
    envSearchFail.search "capital of France" = Except.error () ∧
      (processQuery001 envSearchFail "capital of France").genCalls = [] :=
  ⟨rfl, rfl⟩

/-- Claim C6 (amended): when the web-search call fails, the trigger-mode
variant falls back to general-answer mode and — when the generation
endpoint is healthy — nothing is raised past the loop; the always-search
variant merely logs the failure, calling no generator, and nothing is
raised past the loop either. -/
theorem C6_search_failure_fallback (env : OrchEnv) (q : String) :
    (webMode q = true → env.search (sentQuery q) = Except.error () →
      env.genOk = true →
      (processQuery000 env q).genCalls = [GenCall.general q] ∧
        (processQuery000 env q).threw = false) ∧
    (env.search q = Except.error () →
      (processQuery001 env q).genCalls = [] ∧
        (processQuery001 env q).threw = false) := by
  constructor
  · intro hw hs hg
    constructor <;> simp [processQuery000, hw, hs, hg]
  · intro hs
    constructor <;> simp [processQuery001, hs]

/-- Witness for C6 at a concrete failing-search environment. -/
theorem C6_witness :
    (webMode "search cats" = true ∧
      envSearchFail.search (sentQuery "search cats") = Except.error () ∧
      envSearchFail.genOk = true) ∧
    ((processQuery000 envSearchFail "search cats").genCalls =
        [GenCall.general "search cats"] ∧
      (processQuery000 envSearchFail "search cats").threw = false) :=
  ⟨⟨by decide, rfl, rfl⟩,
    (C6_search_failure_fallback envSearchFail "search cats").1 (by decide) rfl rfl⟩

/-- Counterexample to C7 as stated: in the always-search variant, a
successful search whose results yield zero valid sources does not lead to
a general-answer call — no generator is invoked at all. -/
theorem C7_counterexample :
    envSearchEmpty.search "anything" = Except.ok [] ∧
      (collectSlice (fetchPageContent envSearchEmpty.fetchEnv) []).1 = [] ∧
      (processQuery001 envSearchEmpty "anything").genCalls = [] :=
  ⟨rfl, rfl, rfl⟩

/-- Claim C7 (amended): when the search succeeds but zero sources pass the
validity filter, the trigger-mode variant calls the general-answer path
and never the ranked-generation path; the always-search variant calls no
generator at all (in particular, never the ranked path). -/
theorem C7_zero_sources_general (env : OrchEnv) (q : String) :
    (∀ results, webMode q = true → env.search (sentQuery q) = Except.ok results →
      (collectScan (fetchPageContent env.fetchEnv) REQUIRED_LINKS [] 0 results).1 = [] →
      (GenCall.general q ∈ (processQuery000 env q).genCalls ∧
        ∀ c ∈ (processQuery000 env q).genCalls, isWebCall c = false)) ∧
    (∀ results, env.search q = Except.ok results →
      (collectSlice (fetchPageContent env.fetchEnv) results).1 = [] →
      (processQuery001 env q).genCalls = []) := by
  constructor
  · intro results hw hs hempty
    rcases hg : env.genOk with _ | _ <;>
      constructor <;> simp [processQuery000, hw, hs, hempty, hg, isWebCall]
  · intro results hs hempty
    simp [processQuery001, hs, hempty]

/-- Witness for C7 at a concrete empty-results environment. -/
theorem C7_witness :
    (webMode "search cats" = true ∧
      envSearchEmpty.search (sentQuery "search cats") = Except.ok [] ∧
      (collectScan (fetchPageContent envSearchEmpty.fetchEnv) REQUIRED_LINKS [] 0
          ([] : List SearchResult)).1 = []) ∧
    (GenCall.general "search cats" ∈
        (processQuery000 envSearchEmpty "search cats").genCalls ∧
      ∀ c ∈ (processQuery000 envSearchEmpty "search cats").genCalls,
        isWebCall c = false) :=
  ⟨⟨by decide, rfl, rfl⟩,
    (C7_zero_sources_general envSearchEmpty "search cats").1 [] (by decide) rfl rfl⟩

/-- Counterexample to C8 as stated: in the trigger-mode variant a failing
generation endpoint aborts the interactive loop — the general-answer
branch runs outside the protecting try/catch, so its throw escapes. -/
theorem C8_counterexample :
    envGenDown.genOk = false ∧ (processQuery000 envGenDown "hi").threw = true :=
  ⟨rfl, rfl⟩

/-- Claim C8 (amended): in the always-search variant no failure of any
pipeline step escapes the iteration — the loop always continues; in the
trigger-mode variant, search/fetch/embedding failures likewise never
escape, but the iteration raises past the loop exactly when the
generation endpoint fails. -/
theorem C8_loop_abort (env : OrchEnv) (q : String) :
    (processQuery001 env q).threw = false ∧
      (processQuery000 env q).threw = !env.genOk := by
  constructor
  · rcases hs : env.search q with _ | results
    · simp [processQuery001, hs]
    · simp only [processQuery001, hs]
      split <;> rfl
  · rcases hw : webMode q with _ | _
    · simp [processQuery000, hw]
    · rcases hs : env.search (sentQuery q) with _ | results
      · simp [processQuery000, hw, hs]
      · rcases hg : env.genOk with _ | _ <;>
          by_cases hlen : (collectScan (fetchPageContent env.fetchEnv)
              REQUIRED_LINKS [] 0 results).1.length = 0 <;>
          simp [processQuery000, hw, hs, hg, hlen]

/-- Claim C9 (amended): in the trigger-mode variant, the string sent to
the search client is the raw query with the first occurrence of the exact
lowercase substring "search" removed and surrounding whitespace trimmed;
when web mode is triggered only via "Search"/"SEARCH" (no lowercase
occurrence), nothing is removed — the query is sent unchanged except for
the whitespace trim. -/
theorem C9_sent_query (env : OrchEnv) (q : String) :
    (webMode q = true → (processQuery000 env q).searchedWith = some (sentQuery q)) ∧
    (containsSub "search".data q.data = false →
      sentQuery q = String.mk (trimChars q.data)) := by
  constructor
  · intro hw
    rcases hs : env.search (sentQuery q) with _ | results
    · simp [processQuery000, hw, hs]
    · rcases hg : env.genOk with _ | _ <;>
        by_cases hlen : (collectScan (fetchPageContent env.fetchEnv)
            REQUIRED_LINKS [] 0 results).1.length = 0 <;>
        simp [processQuery000, hw, hs, hg, hlen]
  · intro hnone
    rw [sentQuery, removeFirstOcc_eq_of_no_occ "search".data q.data hnone]

/-- Counterexample to C9 as stated: the query " SEARCH cats" (note the
leading space) triggers web mode via "SEARCH", yet it is not sent to the
search engine unmodified — the trim strips the leading space. -/
theorem C9_counterexample :
    webMode " SEARCH cats" = true ∧
      (processQuery000 envSearchFail " SEARCH cats").searchedWith =
        some "SEARCH cats" ∧
      ("SEARCH cats" : String) ≠ " SEARCH cats" :=
  ⟨by decide, rfl, by decide⟩

/-- Witness for C9 at the concrete query "SEARCH cats". -/
theorem C9_witness :
    (webMode "SEARCH cats" = true ∧
      containsSub "search".data "SEARCH cats".data = false) ∧
    ((processQuery000 envSearchFail "SEARCH cats").searchedWith =
        some (sentQuery "SEARCH cats") ∧
      sentQuery "SEARCH cats" = String.mk (trimChars "SEARCH cats".data)) :=
  ⟨⟨by decide, by decide⟩,
    (C9_sent_query envSearchFail "SEARCH cats").1 (by decide),
    (C9_sent_query envSearchFail "SEARCH cats").2 (by decide)⟩

/-- Claim C10: the interactive loop terminates exactly when the read line
is null, empty, or case-insensitively equals "exit" (both variants share
the test verbatim). -/
theorem C10_exit_condition (l : Option String) :
    shouldExit l = true ↔
      (l = none ∨ l = some "" ∨
        ∃ q, l = some q ∧ lowerStr q = lowerStr "exit") := by
  have hexit : lowerStr "exit" = "exit" := by decide
  rcases l with _ | q
  · simp [shouldExit]
  · rw [hexit]
    simp only [shouldExit, Bool.or_eq_true, beq_iff_eq, Option.some.injEq,
      reduceCtorEq, false_or, String.isEmpty_iff]
    constructor
    · rintro (h | h)
      · exact Or.inl h
      · exact Or.inr ⟨q, rfl, h⟩
    · rintro (h | ⟨q2, hq2, h⟩)
      · exact Or.inl h
      · cases hq2
        exact Or.inr h

end SemSearch
